/-
Verification development for the rxguard repository.

This file gives a shallow embedding, in Lean 4, of the core pure logic of
rxguard (a policy-enforced medication-safety gate over FDA drug-label
snapshots), translated from the TypeScript sources:

  * `src/lib/rxguard/utils.ts`    — string normalization helpers
  * `src/lib/rxguard/types.ts`    — the data model
  * `src/lib/rxguard/evidence.ts` — snapshot construction / canonical text
  * `src/lib/rxguard/policy.ts`   — the deterministic policy engine
  * `src/lib/rxguard/rxguard.ts`  — proof-card building and the answer path
  * `src/lib/rxguard/openfda.ts`  — deterministic selection and ambiguity

JavaScript strings are modelled as Lean `String` (operating on the
code-point list `String.data`; the sources only rely on BMP text, where
UTF-16 indices and code-point indices agree).  The SHA-256 function from
node's `crypto` (not part of this repository) is kept abstract: every
definition that hashes takes the hash function as an explicit parameter,
and the theorems hold for all hash functions, in particular the real
SHA-256.  Likewise `Number(...)` parsing and `localeCompare` are modelled
by an abstract integer parse parameter and by code-point lexicographic
comparison respectively, as explained at their definitions.
-/
import Mathlib

namespace RxGuard

/-! ## String helpers (utils.ts)

JavaScript's `\s` character class also contains some exotic Unicode
spaces; the repository only feeds it ASCII label text, so we model the
common whitespace characters. -/

/-- The whitespace characters matched by the JS regex class `\s`
(restricted to the ASCII range actually occurring in label text). -/
def jsIsSpace (c : Char) : Bool :=
  c = ' ' || c = '\t' || c = '\n' || c = '\r' || c = '\x0b' || c = '\x0c'

/-- Carriage-return / line-feed characters, the class `[\r\n]`. -/
def isCrLf (c : Char) : Bool :=
  c = '\r' || c = '\n'

/-- The JS word characters `\w` = `[A-Za-z0-9_]`, used for `\b`. -/
def isWordChar (c : Char) : Bool :=
  ('a' ≤ c && c ≤ 'z') || ('A' ≤ c && c ≤ 'Z') || ('0' ≤ c && c ≤ '9') || c = '_'

/-- Replace every maximal run of characters satisfying `p` by a single
space: the JS `replace(/P+/g, ' ')` for a character class `P`. -/
def collapseRuns (p : Char → Bool) : List Char → List Char
  | [] => []
  | [c] => if p c then [' '] else [c]
  | c₁ :: c₂ :: t =>
    if p c₁ && p c₂ then collapseRuns p (c₂ :: t)
    else (if p c₁ then ' ' else c₁) :: collapseRuns p (c₂ :: t)

/-- Drop leading and trailing JS whitespace: `String.prototype.trim`. -/
def trimList (l : List Char) : List Char :=
  ((l.dropWhile jsIsSpace).reverse.dropWhile jsIsSpace).reverse

/-- JS `toLowerCase` (ASCII-faithful). -/
def strToLower (s : String) : String :=
  ⟨s.data.map Char.toLower⟩

/-- utils.ts `normalizeForMatch`:
`s.toLowerCase().replace(/\s+/g, ' ').trim()`. -/
def normalizeForMatch (s : String) : String :=
  ⟨trimList (collapseRuns jsIsSpace (s.data.map Char.toLower))⟩

/-- utils.ts `safeOneLine`: `s.replace(/[\r\n]+/g, ' ').trim()`. -/
def safeOneLine (s : String) : String :=
  ⟨trimList (collapseRuns isCrLf s.data)⟩

/-- utils.ts `clamp`: `Math.max(min, Math.min(max, n))`. -/
def clamp (n lo hi : Int) : Int :=
  max lo (min hi n)

/-- JS `String.prototype.slice(start, stop)` for already-clamped
`0 ≤ start ≤ stop ≤ length` arguments (the only way the sources call it). -/
def strSlice (s : String) (start stop : Nat) : String :=
  ⟨(s.data.drop start).take (stop - start)⟩

/-- utils.ts `chunkTextAround`:
`text.slice(clamp(index-radius,0,len), clamp(index+radius,0,len)).trim()`. -/
def chunkTextAround (text : String) (index : Nat) (radius : Nat) : String :=
  let len : Int := text.data.length
  let start := clamp ((index : Int) - (radius : Int)) 0 len
  let stop := clamp ((index : Int) + (radius : Int)) 0 len
  ⟨trimList ((text.data.drop start.toNat).take (stop - start).toNat)⟩

/-- Substring test on character lists, scanning left to right; the body
of JS `String.prototype.includes`. -/
def containsList (hay needle : List Char) : Bool :=
  match hay with
  | [] => needle.isEmpty
  | _ :: t => needle.isPrefixOf hay || containsList t needle

/-- JS `hay.includes(needle)`. -/
def jsIncludes (hay needle : String) : Bool :=
  containsList hay.data needle.data

/-- First index at which `needle` occurs, scanning left to right; JS
`hay.indexOf(needle)` (with `none` for `-1`). -/
def idxOf (needle : List Char) : List Char → Option Nat
  | [] => if needle.isEmpty then some 0 else none
  | c :: t => if needle.isPrefixOf (c :: t) then some 0 else (idxOf needle t).map (· + 1)

/-- `Array.prototype.join(sep)` on a list of strings. -/
def joinWith (sep : String) : List String → String
  | [] => ""
  | [x] => x
  | x :: xs => x ++ sep ++ joinWith sep xs

/-- Lexicographic `≤` on character lists: the order JS string
comparison (`<`, default `Array.sort`, and — for the identifier strings
appearing here — `localeCompare`) induces on code points. -/
def listLexLe : List Char → List Char → Bool
  | [], _ => true
  | _ :: _, [] => false
  | a :: as, b :: bs => if a = b then listLexLe as bs else a < b

/-- Lexicographic string `≤` by code points (see `listLexLe`). -/
def strLe (a b : String) : Bool :=
  listLexLe a.data b.data

/-! ## Data model (types.ts) -/

/-- types.ts `RiskLabel`. -/
inductive RiskLabel where
  | UNKNOWN | LOW | MODERATE | HIGH
  deriving DecidableEq, Repr, Inhabited

/-- types.ts `Decision`. -/
inductive Decision where
  | BLOCK | CAUTION | CLARIFY | INFO
  deriving DecidableEq, Repr, Inhabited

/-- types.ts `PregnancyStatus`. -/
inductive PregnancyStatus where
  | no | trying | pregnant_t1 | pregnant_t2 | pregnant_t3 | unknown
  deriving DecidableEq, Repr, Inhabited

/-- types.ts `RxGuardProfile` (optional fields as `Option`). -/
structure RxGuardProfile where
  age : Option Nat := none
  sex : Option String := none
  pregnancy : Option PregnancyStatus := none
  conditions : Option (List String) := none
  currentMeds : Option (List String) := none
  allergies : Option (List String) := none
  deriving DecidableEq, Repr, Inhabited

/-- types.ts `EvidenceSections`. -/
structure EvidenceSections where
  activeIngredients : String
  boxedWarning : String
  contraindications : String
  warnings : String
  warningsAndCautions : String
  drugInteractions : String
  pregnancy : String
  lactation : String
  pediatricUse : String
  geriatricUse : String
  doNotUse : String
  askDoctor : String
  deriving DecidableEq, Repr, Inhabited

/-- types.ts `LabelSnapshot`. -/
structure LabelSnapshot where
  setId : String
  effectiveTime : String
  evidenceHash : String
  evidenceText : String
  sections : EvidenceSections
  brandNames : List String
  genericNames : List String
  activeIngredientsList : List String
  deriving DecidableEq, Repr, Inhabited

/-- types.ts `EvidenceQuote`; the TS field `section` is called
`sectionName` here because `section` is a Lean keyword. -/
structure EvidenceQuote where
  sectionName : String
  quote : String
  reason : Option String := none
  deriving DecidableEq, Repr, Inhabited

/-- types.ts `ProofCard` (the `source` field is the fixed literal
`"openFDA"`). -/
structure ProofCard where
  source : String
  setId : String
  effectiveTime : String
  evidenceHash : String
  quotes : List EvidenceQuote
  deriving DecidableEq, Repr, Inhabited

/-- policy.ts `PolicyResult`. -/
structure PolicyResult where
  decision : Decision
  risk : RiskLabel
  rulesTriggered : List String
  clarifyingQuestion : Option String := none
  quotes : List EvidenceQuote
  deriving DecidableEq, Repr, Inhabited

/-- The `openfda` sub-object of types.ts `OpenFdaLabelRecord`. -/
structure OpenFdaMeta where
  brand_name : Option (List String) := none
  generic_name : Option (List String) := none
  substance_name : Option (List String) := none
  manufacturer_name : Option (List String) := none
  deriving DecidableEq, Repr, Inhabited

/-- types.ts `OpenFdaLabelRecord` (all label sections are optional
string arrays, as declared in the TS interface). -/
structure OpenFdaLabelRecord where
  id : Option String := none
  set_id : Option String := none
  effective_time : Option String := none
  openfda : Option OpenFdaMeta := none
  active_ingredient : Option (List String) := none
  boxed_warning : Option (List String) := none
  contraindications : Option (List String) := none
  warnings : Option (List String) := none
  warnings_and_cautions : Option (List String) := none
  drug_interactions : Option (List String) := none
  pregnancy : Option (List String) := none
  lactation : Option (List String) := none
  pediatric_use : Option (List String) := none
  geriatric_use : Option (List String) := none
  do_not_use : Option (List String) := none
  ask_doctor : Option (List String) := none
  deriving DecidableEq, Repr, Inhabited

/-! ## Evidence extraction (evidence.ts) -/

/-- evidence.ts `joinSection` restricted to the declared field type
`string[] | undefined` (every section field of `OpenFdaLabelRecord` is a
string array): `undefined ↦ ''`, arrays are `safeOneLine`d and joined
with `'\n'`. -/
def joinSection (v : Option (List String)) : String :=
  match v with
  | none => ""
  | some l => joinWith "\n" (l.map safeOneLine)

/-- evidence.ts `extractEvidenceSections`. -/
def extractEvidenceSections (record : OpenFdaLabelRecord) : EvidenceSections where
  activeIngredients := joinSection record.active_ingredient
  boxedWarning := joinSection record.boxed_warning
  contraindications := joinSection record.contraindications
  warnings := joinSection record.warnings
  warningsAndCautions := joinSection record.warnings_and_cautions
  drugInteractions := joinSection record.drug_interactions
  pregnancy := joinSection record.pregnancy
  lactation := joinSection record.lactation
  pediatricUse := joinSection record.pediatric_use
  geriatricUse := joinSection record.geriatric_use
  doNotUse := joinSection record.do_not_use
  askDoctor := joinSection record.ask_doctor

/-- The per-section body cleanup in `buildCanonicalEvidenceText`:
`safeOneLine(body).replace(/\s+/g, ' ').trim()`. -/
def cleanSection (body : String) : String :=
  ⟨trimList (collapseRuns jsIsSpace (safeOneLine body).data)⟩

/-- The fixed, ordered `(title, body)` part list of
`buildCanonicalEvidenceText`. -/
def sectionParts (sections : EvidenceSections) : List (String × String) :=
  [("ACTIVE INGREDIENTS", sections.activeIngredients),
   ("BOXED WARNING", sections.boxedWarning),
   ("CONTRAINDICATIONS", sections.contraindications),
   ("WARNINGS", sections.warnings),
   ("WARNINGS AND CAUTIONS", sections.warningsAndCautions),
   ("DRUG INTERACTIONS", sections.drugInteractions),
   ("PREGNANCY", sections.pregnancy),
   ("LACTATION", sections.lactation),
   ("PEDIATRIC USE", sections.pediatricUse),
   ("GERIATRIC USE", sections.geriatricUse),
   ("DO NOT USE", sections.doNotUse),
   ("ASK A DOCTOR", sections.askDoctor)]

/-- The twelve fixed section titles, in canonical order. -/
def sectionTitles : List String :=
  ["ACTIVE INGREDIENTS", "BOXED WARNING", "CONTRAINDICATIONS", "WARNINGS",
   "WARNINGS AND CAUTIONS", "DRUG INTERACTIONS", "PREGNANCY", "LACTATION",
   "PEDIATRIC USE", "GERIATRIC USE", "DO NOT USE", "ASK A DOCTOR"]

/-- evidence.ts `buildCanonicalEvidenceText`: each part is rendered as
the template `=== ${title} ===\n${clean}` and the parts are joined with
`'\n\n'`. -/
def buildCanonicalEvidenceText (sections : EvidenceSections) : String :=
  joinWith "\n\n"
    ((sectionParts sections).map fun p =>
      "=== " ++ p.1 ++ " ===" ++ "\n" ++ cleanSection p.2)

/-- evidence.ts `buildLabelSnapshot`.  `sha256Hex` (node `crypto`, not
repository code) is passed as an explicit parameter; the `throw` on a
missing/empty `set_id` or `effective_time` becomes `Except.error` with
the source's message. -/
def buildLabelSnapshot (sha256Hex : String → String)
    (record : OpenFdaLabelRecord) : Except String LabelSnapshot :=
  let setId := record.set_id.getD ""
  let effectiveTime := record.effective_time.getD ""
  if setId = "" || effectiveTime = "" then
    .error "openFDA record missing set_id/effective_time; cannot pin evidence."
  else
    let sections := extractEvidenceSections record
    let evidenceText := buildCanonicalEvidenceText sections
    .ok
      { setId := setId
        effectiveTime := effectiveTime
        evidenceHash := sha256Hex evidenceText
        evidenceText := evidenceText
        sections := sections
        brandNames := ((record.openfda.map (·.brand_name)).getD none).getD []
        genericNames := ((record.openfda.map (·.generic_name)).getD none).getD []
        activeIngredientsList := record.active_ingredient.getD [] }

/-- evidence.ts `quoteExistsInEvidence`:
`!!normalizeForMatch(quote) && normalizeForMatch(evidenceText).includes(normalizeForMatch(quote))`. -/
def quoteExistsInEvidence (evidenceText quote : String) : Bool :=
  let ev := normalizeForMatch evidenceText
  let q := normalizeForMatch quote
  q ≠ "" && jsIncludes ev q

/-! ## Policy engine (policy.ts)

The six `BASE_RULES` patterns are case-insensitive regexes of two simple
shapes: `/\b.+/i` (the boxed-warning presence test) and alternations of
literals, some wrapped in `\b...\b` word boundaries.  We model a pattern
by that shape, and regex search by a left-to-right scan that mirrors the
JS engine: the match index is the least position at which some
alternative matches. -/

/-- One literal alternative of a rule pattern; `bounded` records a
`\b...\b` wrapper around the literal. -/
structure LitAlt where
  lit : String
  bounded : Bool := false
  deriving DecidableEq, Repr

/-- The two regex shapes appearing in `BASE_RULES`:
`anyWordChar` is `/\b.+/i`, `alts` is a case-insensitive alternation of
(possibly `\b`-bounded) literals. -/
inductive RulePattern where
  | anyWordChar
  | alts (as : List LitAlt)
  deriving DecidableEq, Repr

/-- Word-char test on an optional character (out-of-range = non-word),
as used by the `\b` boundary assertion. -/
def isWordOpt : Option Char → Bool
  | some c => isWordChar c
  | none => false

/-- Case-insensitive "is `lit` a prefix of `s`". -/
def litPrefixCI : List Char → List Char → Bool
  | [], _ => true
  | _ :: _, [] => false
  | a :: as, b :: bs => (a.toLower = b.toLower) && litPrefixCI as bs

/-- Characters the regex `.` does NOT match (JS line terminators). -/
def isLineTerm (c : Char) : Bool :=
  c = '\n' || c = '\r' || c.toNat = 0x2028 || c.toNat = 0x2029

/-- Does one alternative match at the current position?  `prev` is the
character just before the position (for the left `\b`), `s` the suffix
starting at the position. -/
def altHere (a : LitAlt) (prev : Option Char) (s : List Char) : Bool :=
  litPrefixCI a.lit.data s &&
  (!a.bounded ||
    ((isWordOpt prev != isWordOpt s.head?) &&
     (isWordOpt (s.get? (a.lit.data.length - 1)) != isWordOpt (s.get? a.lit.data.length))))

/-- Does the pattern match starting exactly at the current position? -/
def patternHere (p : RulePattern) (prev : Option Char) (s : List Char) : Bool :=
  match p with
  | .anyWordChar =>
    (isWordOpt prev != isWordOpt s.head?) &&
    (match s.head? with
     | some c => !isLineTerm c
     | none => false)
  | .alts as => as.any fun a => altHere a prev s

/-- Left-to-right scan for the first match position (the JS regex
engine's `m.index`). -/
def scanIdx (p : RulePattern) (prev : Option Char) (s : List Char) (i : Nat) : Option Nat :=
  match s with
  | [] => if patternHere p prev [] then some i else none
  | c :: t => if patternHere p prev (c :: t) then some i else scanIdx p (some c) t (i + 1)

/-- Index of the first regex match in a string, `none` when the regex
does not match. -/
def patternFirstIdx (p : RulePattern) (s : String) : Option Nat :=
  scanIdx p none s.data 0

/-- JS `pattern.test(s)`. -/
def patternTest (p : RulePattern) (s : String) : Bool :=
  (patternFirstIdx p s).isSome

/-- policy.ts `KeywordRule`; `target` is the TS `section` field
(a `sections` key or `'CANONICAL'`), as a string to mirror the loosely
typed TS lookup. -/
structure KeywordRule where
  id : String
  target : String
  pattern : RulePattern
  reason : String
  severity : RiskLabel
  deriving Repr

/-- policy.ts `BASE_RULES`, pattern for pattern:

* `BOXED_WARNING_PRESENT`: `/\b.+/i`
* `CONTRAINDICATION_MENTION`:
  `/contraindicat(ed|ion)|\bdo not use\b|\bshould not\b|\bmust not\b/i`
* `PREGNANCY_RISK_LANGUAGE`: `/pregnan|fetal|embryo|teratogen|ductus arteriosus/i`
* `BLEEDING_RISK_LANGUAGE`: `/bleed|hemorrhag|gastrointestinal|ulcer/i`
* `RENAL_RISK_LANGUAGE`: `/renal|kidney|nephro/i`
* `DRUG_INTERACTION_SECTION`: `/interact|concomitant|co-administration|avoid/i` -/
def BASE_RULES : List KeywordRule :=
  [{ id := "BOXED_WARNING_PRESENT", target := "boxedWarning",
     pattern := .anyWordChar,
     reason := "Boxed warning section is present.", severity := .HIGH },
   { id := "CONTRAINDICATION_MENTION", target := "contraindications",
     pattern := .alts [⟨"contraindicated", false⟩, ⟨"contraindication", false⟩,
       ⟨"do not use", true⟩, ⟨"should not", true⟩, ⟨"must not", true⟩],
     reason := "Contraindication / strong avoidance language appears.", severity := .HIGH },
   { id := "PREGNANCY_RISK_LANGUAGE", target := "pregnancy",
     pattern := .alts [⟨"pregnan", false⟩, ⟨"fetal", false⟩, ⟨"embryo", false⟩,
       ⟨"teratogen", false⟩, ⟨"ductus arteriosus", false⟩],
     reason := "Pregnancy-related risk language appears.", severity := .HIGH },
   { id := "BLEEDING_RISK_LANGUAGE", target := "CANONICAL",
     pattern := .alts [⟨"bleed", false⟩, ⟨"hemorrhag", false⟩,
       ⟨"gastrointestinal", false⟩, ⟨"ulcer", false⟩],
     reason := "Bleeding risk language appears.", severity := .MODERATE },
   { id := "RENAL_RISK_LANGUAGE", target := "CANONICAL",
     pattern := .alts [⟨"renal", false⟩, ⟨"kidney", false⟩, ⟨"nephro", false⟩],
     reason := "Kidney/renal risk language appears.", severity := .MODERATE },
   { id := "DRUG_INTERACTION_SECTION", target := "drugInteractions",
     pattern := .alts [⟨"interact", false⟩, ⟨"concomitant", false⟩,
       ⟨"co-administration", false⟩, ⟨"avoid", false⟩],
     reason := "Drug interaction language appears.", severity := .MODERATE }]

/-- policy.ts `getSectionText` (the `'CANONICAL'` key selects the whole
canonical text; otherwise the named `sections` field; the TS
`String(s[key] ?? '')` fallback for unknown keys becomes `""`). -/
def getSectionText (snapshot : LabelSnapshot) (key : String) : String :=
  if key = "CANONICAL" then snapshot.evidenceText
  else if key = "activeIngredients" then snapshot.sections.activeIngredients
  else if key = "boxedWarning" then snapshot.sections.boxedWarning
  else if key = "contraindications" then snapshot.sections.contraindications
  else if key = "warnings" then snapshot.sections.warnings
  else if key = "warningsAndCautions" then snapshot.sections.warningsAndCautions
  else if key = "drugInteractions" then snapshot.sections.drugInteractions
  else if key = "pregnancy" then snapshot.sections.pregnancy
  else if key = "lactation" then snapshot.sections.lactation
  else if key = "pediatricUse" then snapshot.sections.pediatricUse
  else if key = "geriatricUse" then snapshot.sections.geriatricUse
  else if key = "doNotUse" then snapshot.sections.doNotUse
  else if key = "askDoctor" then snapshot.sections.askDoctor
  else ""

/-- policy.ts `extractQuote`: a 220-radius chunk around the first match,
`null` when there is no match or the trimmed chunk is empty. -/
def extractQuote (text : String) (p : RulePattern) : Option String :=
  match patternFirstIdx p text with
  | none => none
  | some i =>
    let chunk := chunkTextAround text i 220
    if chunk = "" then none else some chunk

/-- policy.ts `bumpRisk`. -/
def riskOrder : RiskLabel → Nat
  | .UNKNOWN => 0
  | .LOW => 1
  | .MODERATE => 2
  | .HIGH => 3

/-- policy.ts `bumpRisk`: `order[next] > order[current] ? next : current`. -/
def bumpRisk (current next : RiskLabel) : RiskLabel :=
  if riskOrder current < riskOrder next then next else current

/-- policy.ts `profileHasPregnancy`. -/
def profileHasPregnancy (profile : Option RxGuardProfile) : Bool :=
  match profile.bind (·.pregnancy) with
  | none => false
  | some st => st ≠ .no && st ≠ .unknown

/-- policy.ts `profileHasCondition`. -/
def profileHasCondition (profile : Option RxGuardProfile) (keywords : List String) : Bool :=
  let cond := ((profile.map (·.conditions)).getD none).getD [] |>.map normalizeForMatch
  keywords.any fun k => cond.any fun c => jsIncludes c (normalizeForMatch k)

/-- policy.ts `profileHasMed`. -/
def profileHasMed (profile : Option RxGuardProfile) (med : String) : Bool :=
  let meds := ((profile.map (·.currentMeds)).getD none).getD [] |>.map normalizeForMatch
  meds.any fun m => jsIncludes m (normalizeForMatch med)

/-- policy.ts `anyOtherMedMentionedInInteractions`: the sub-list of
`otherMeds` whose non-empty normalization occurs in the normalized
interactions section (original strings are kept). -/
def anyOtherMedMentionedInInteractions (snapshot : LabelSnapshot)
    (otherMeds : List String) : List String :=
  let interactions := normalizeForMatch snapshot.sections.drugInteractions
  otherMeds.foldl
    (fun hits med =>
      let m := normalizeForMatch med
      if m = "" then hits
      else if jsIncludes interactions m then hits ++ [med] else hits)
    []

/-- policy.ts `quoteAroundSubstring`. -/
def quoteAroundSubstring (haystack needle : String) : Option String :=
  let h := normalizeForMatch haystack
  let n := normalizeForMatch needle
  match idxOf n.data h.data with
  | none => none
  | some _ =>
    let rawIdx := idxOf n.data (strToLower haystack).data
    let around := chunkTextAround haystack (rawIdx.getD 0) 220
    if around = "" then none else some around

/-- The body of the `for (const rule of BASE_RULES)` loop in
`evaluatePolicy`, as a fold step over
`(rulesTriggered, quotes, risk)`. -/
def baseStep (snapshot : LabelSnapshot) (profile : Option RxGuardProfile)
    (acc : List String × List EvidenceQuote × RiskLabel) (rule : KeywordRule) :
    List String × List EvidenceQuote × RiskLabel :=
  let sectionText := getSectionText snapshot rule.target
  if sectionText = "" then acc
  else if !patternTest rule.pattern sectionText then acc
  else if rule.id = "PREGNANCY_RISK_LANGUAGE" && !profileHasPregnancy profile then acc
  else
    let rt := acc.1 ++ [rule.id]
    let risk := bumpRisk acc.2.2 rule.severity
    match extractQuote sectionText rule.pattern with
    | some q =>
      (rt,
       acc.2.1 ++ [{ sectionName := if rule.target = "CANONICAL" then "LABEL" else rule.target,
                     quote := q, reason := some rule.reason }],
       risk)
    | none => (rt, acc.2.1, risk)

/-- The clarifying question of the empty-evidence branch of
`evaluatePolicy`. -/
def clarifyNoEvidenceQuestion : String :=
  "I could not retrieve the FDA label evidence for this medication. Can you provide the exact product name (and strength) from the package?"

/-- The clarifying question of the `UNKNOWN`-risk branch of
`evaluatePolicy`. -/
def clarifyUnknownQuestion : String :=
  "To check safety, I need more context (dose/formulation, your conditions, and other meds). What exact product are you using (including strength), and are you taking any other medications?"

/-- The fallback quote text of `evaluatePolicy`:
`evidenceText.slice(0, 280) + (evidenceText.length > 280 ? '…' : '')`. -/
def fallbackQuoteText (evidenceText : String) : String :=
  strSlice evidenceText 0 280 ++ (if 280 < evidenceText.data.length then "…" else "")

/-- The up-to-3 interaction quotes generated for the interaction hits
(`quoteAroundSubstring` misses are skipped, as in the source). -/
def interactionQuotes (interactionSection : String) (hits : List String) :
    List EvidenceQuote :=
  (hits.take 3).filterMap fun hit =>
    (quoteAroundSubstring interactionSection hit).map fun q =>
      { sectionName := "drugInteractions", quote := q,
        reason := some ("The interaction section mentions “" ++ hit ++ "”.") }

/-- The `--- Base label-text rules ---` loop of `evaluatePolicy`: fold
`baseStep` over `BASE_RULES`, starting from no triggered rules, no
quotes and risk `UNKNOWN`.  Components: `(rulesTriggered, quotes, risk)`. -/
def basePass (snapshot : LabelSnapshot) (profile : Option RxGuardProfile) :
    List String × List EvidenceQuote × RiskLabel :=
  BASE_RULES.foldl (baseStep snapshot profile) ([], [], .UNKNOWN)

/-- The `--- Simple profile-aware upgrades ---` block of
`evaluatePolicy`: the anticoagulant upgrade followed by the CKD upgrade,
threaded through `(risk, rulesTriggered)`. -/
def upgradesStep (profile : Option RxGuardProfile) (rt : List String)
    (risk : RiskLabel) : RiskLabel × List String :=
  let anticoagulant := profileHasMed profile "warfarin" || profileHasMed profile "apixaban" ||
    profileHasMed profile "rivaroxaban" || profileHasMed profile "dabigatran"
  let p1 :=
    if anticoagulant && rt.contains "BLEEDING_RISK_LANGUAGE" then
      (bumpRisk risk .HIGH, rt ++ ["PROFILE_ANTICOAGULANT_UPGRADE"])
    else (risk, rt)
  let ckd := profileHasCondition profile ["ckd", "kidney", "renal"]
  if ckd && p1.2.contains "RENAL_RISK_LANGUAGE" then
    (bumpRisk p1.1 .HIGH, p1.2 ++ ["PROFILE_CKD_UPGRADE"])
  else p1

/-- The interaction-hit computation of `evaluatePolicy`:
`meds.length ? anyOtherMedMentionedInInteractions(snapshot, meds) : []`
over the `filter(Boolean)`ed other-medication list. -/
def interactionHitsOf (snapshot : LabelSnapshot) (otherMeds : Option (List String)) :
    List String :=
  let meds := (otherMeds.getD []).filter (· ≠ "")
  if meds.length ≠ 0 then anyOtherMedMentionedInInteractions snapshot meds else []

/-- The `--- Decision mapping (conservative) ---` block of
`evaluatePolicy`, returning `(decision, clarifyingQuestion, risk)`. -/
def decisionMapping (evidenceText : String) (risk : RiskLabel) :
    Decision × Option String × RiskLabel :=
  if evidenceText = "" then (.CLARIFY, some clarifyNoEvidenceQuestion, .UNKNOWN)
  else if risk = .HIGH then (.BLOCK, none, risk)
  else if risk = .MODERATE then (.CAUTION, none, risk)
  else if risk = .LOW then (.INFO, none, risk)
  else (.CLARIFY, some clarifyUnknownQuestion, risk)

/-- The final `// Ensure quotes list is not empty for BLOCK/CAUTION`
step of `evaluatePolicy`. -/
def finalizeQuotes (decision : Decision) (evidenceText : String)
    (qs : List EvidenceQuote) : List EvidenceQuote :=
  if (decision = .BLOCK || decision = .CAUTION) && qs.length = 0 then
    qs ++ [{ sectionName := "LABEL", quote := fallbackQuoteText evidenceText,
             reason := some "Label evidence snapshot (preview)." }]
  else qs

/-- policy.ts `evaluatePolicy`: base label-text rules, profile-aware
upgrades, the other-medication interaction cross-check, the conservative
decision mapping, and the non-empty-quotes fallback for
`BLOCK`/`CAUTION`. -/
def evaluatePolicy (snapshot : LabelSnapshot) (profile : Option RxGuardProfile)
    (otherMeds : Option (List String)) : PolicyResult :=
  let base := basePass snapshot profile
  let up := upgradesStep profile base.1 base.2.2
  let hits := interactionHitsOf snapshot otherMeds
  let risk2 := if hits.length ≠ 0 then bumpRisk up.1 .HIGH else up.1
  let rt2 := if hits.length ≠ 0 then up.2 ++ ["INTERACTION_OTHER_MED_MENTIONED"] else up.2
  let qs2 :=
    if hits.length ≠ 0 then
      base.2.1 ++ interactionQuotes snapshot.sections.drugInteractions hits
    else base.2.1
  let dm := decisionMapping snapshot.evidenceText risk2
  { decision := dm.1, risk := dm.2.2, rulesTriggered := rt2,
    clarifyingQuestion := dm.2.1,
    quotes := finalizeQuotes dm.1 snapshot.evidenceText qs2 }

/-! ## Proof card and answer path (rxguard.ts) -/

/-- rxguard.ts `buildProofCard`: keep only quotes that verifiably occur
in the canonical evidence text. -/
def buildProofCard (setId effectiveTime evidenceHash evidenceText : String)
    (quotes : List EvidenceQuote) : ProofCard where
  source := "openFDA"
  setId := setId
  effectiveTime := effectiveTime
  evidenceHash := evidenceHash
  quotes := quotes.filter fun q => quoteExistsInEvidence evidenceText q.quote

/-- The pure core of rxguard.ts `rxguardAnswer` once resolution has
produced a snapshot (`resolution.kind === 'ok'`): the policy gate
followed by the proof-card build (rxguard.ts lines 221–233). -/
def rxguardAnswerCore (snapshot : LabelSnapshot) (profile : Option RxGuardProfile)
    (otherMeds : Option (List String)) : PolicyResult × ProofCard :=
  let policy := evaluatePolicy snapshot profile otherMeds
  (policy,
   buildProofCard snapshot.setId snapshot.effectiveTime snapshot.evidenceHash
     snapshot.evidenceText policy.quotes)

/-! ## External label source client (openfda.ts) -/

/-- openfda.ts `effectiveTimeToNumber`.  `jsNumber` abstracts the JS
`Number(...)` conversion composed with the `Number.isFinite` guard
(non-finite parses yield 0); a missing field parses to 0.  All theorems
below hold for every such parse function. -/
def effectiveTimeToNumber (jsNumber : String → Int) : Option String → Int
  | none => 0
  | some s => jsNumber s

/-- The stable tie-break identifier of `chooseDeterministicRecord`:
`(a.id ?? a.set_id ?? '').toString()`. -/
def recordIdKey (r : OpenFdaLabelRecord) : String :=
  match r.id with
  | some s => s
  | none => r.set_id.getD ""

/-- The comparator of `chooseDeterministicRecord`, expressed as the
"may precede" boolean relation used by a stable sort: descending by
parsed effective time, ties ascending by the stable identifier
(`localeCompare` modelled as code-point lexicographic order). -/
def recordLe (jsNumber : String → Int) (a b : OpenFdaLabelRecord) : Bool :=
  let ta := effectiveTimeToNumber jsNumber a.effective_time
  let tb := effectiveTimeToNumber jsNumber b.effective_time
  if ta ≠ tb then tb < ta else strLe (recordIdKey a) (recordIdKey b)

/-- openfda.ts `chooseDeterministicRecord`: `null` on an empty list,
otherwise the head of the stable sort by `recordLe`.  (JS
`Array.prototype.sort` is a stable sort; any stable sort produces the
same output for a total preorder, so the stable `insertionSort` models
it exactly.) -/
def chooseDeterministicRecord (jsNumber : String → Int)
    (records : List OpenFdaLabelRecord) : Option OpenFdaLabelRecord :=
  if records.isEmpty then none
  else (records.insertionSort fun a b => recordLe jsNumber a b = true).head?

/-- openfda.ts `normalizedActiveIngredientList`: lowercased
`safeOneLine`d ingredients, empty entries dropped, sorted (JS default
string sort, modelled as code-point lexicographic order; duplicates are
kept — there is no deduplication in the source). -/
def normalizedActiveIngredientList (r : OpenFdaLabelRecord) : List String :=
  (((r.active_ingredient.getD []).map fun s => strToLower (safeOneLine s)).filter
    (· ≠ "")).insertionSort fun a b => strLe a b = true

/-- The grouping key of `detectAmbiguity`: the normalized ingredient
list joined with `' | '`. -/
def aiKey (r : OpenFdaLabelRecord) : String :=
  joinWith " | " (normalizedActiveIngredientList r)

/-- openfda.ts `detectAmbiguity` result. -/
structure AmbiguityResult where
  ambiguous : Bool
  options : List (OpenFdaLabelRecord × String)
  deriving Repr

/-- openfda.ts `detectAmbiguity`: ambiguous iff more than one distinct
`aiKey` exists (JS `Set` size, modelled by `eraseDups`) and more than
one candidate exists. -/
def detectAmbiguity (records : List OpenFdaLabelRecord) : AmbiguityResult where
  ambiguous := decide (1 < ((records.map aiKey).eraseDups).length) && decide (1 < records.length)
  options := records.map fun r => (r, aiKey r)

/-! ## Resolution cache miss path (labelCache.ts)

`resolveDrugToPinnedLabel` is async I/O (Firestore, storage, fetch); its
full-cache-miss tail — steps 2–4, everything after `fetchLabelCandidates`
returned `records` — is pure given the fetched candidate list, and is
modelled here.  The second component of the result collects the
snapshots passed to `upsertSnapshot`, i.e. what the path persists. -/

/-- labelCache.ts `toOption`: the formulation summary surfaced for an
ambiguous resolution. -/
structure LabelOption where
  brandNames : List String
  genericNames : List String
  activeIngredients : List String
  setId : Option String
  effectiveTime : Option String
  deriving DecidableEq, Repr

/-- labelCache.ts `toOption`. -/
def toOption (r : OpenFdaLabelRecord) : LabelOption where
  brandNames := ((r.openfda.map (·.brand_name)).getD none).getD []
  genericNames := ((r.openfda.map (·.generic_name)).getD none).getD []
  activeIngredients := r.active_ingredient.getD []
  setId := r.set_id
  effectiveTime := r.effective_time

/-- The `kind` variants of types.ts `LabelResolutionResult` relevant to
the miss path. -/
inductive MissOutcome where
  | ok (snapshot : LabelSnapshot)
  | notFound
  | ambiguous (options : List LabelOption)
  deriving DecidableEq, Repr

/-- The pure tail of labelCache.ts `resolveDrugToPinnedLabel` after a
full cache miss, given the records fetched from openFDA (steps 2–4 of
the source, lines 433–478): empty fetch → `not_found`; ambiguity →
`ambiguous` (nothing persisted); otherwise the deterministic record is
chosen, the snapshot built (a `buildLabelSnapshot` throw propagates) and
persisted. -/
def resolveMissPath (sha256Hex : String → String) (jsNumber : String → Int)
    (records : List OpenFdaLabelRecord) :
    Except String (MissOutcome × List LabelSnapshot) :=
  if records.isEmpty then .ok (.notFound, [])
  else
    let amb := detectAmbiguity records
    if amb.ambiguous then
      .ok (.ambiguous ((amb.options.take 5).map fun o => toOption o.1), [])
    else
      match chooseDeterministicRecord jsNumber records with
      | none => .ok (.notFound, [])
      | some record =>
        match buildLabelSnapshot sha256Hex record with
        | .error e => .error e
        | .ok snapshot => .ok (.ok snapshot, [snapshot])

/-! ## Concrete example inputs

Records and snapshots used by the witness and counterexample theorems
below.  They are ordinary values of the embedded data model; snapshots
are built through `buildLabelSnapshot` so that they are exactly what the
resolution path would hand to the policy engine. -/

/-- A label record whose interaction section starts with 220 blank array
entries (220 newlines after joining) followed by the two entries
`"war"`, `"farin"`: the interaction text normalizes to `"war farin"` but
contains no raw `"war farin"` substring, and the match sits beyond the
220-character quote radius. -/
def interactionPrefixRecord : OpenFdaLabelRecord :=
  { set_id := some "s1", effective_time := some "20240101",
    drug_interactions := some (List.replicate 220 "" ++ ["war", "farin"]) }

/-- The snapshot `buildLabelSnapshot` produces for
`interactionPrefixRecord` (the hash function is irrelevant to the
quote-handling behaviour). -/
def interactionPrefixSnapshot : LabelSnapshot :=
  ((buildLabelSnapshot (fun _ => "hash") interactionPrefixRecord).toOption).getD default

/-- A record with a boxed-warning section, for exercising the `BLOCK`
path. -/
def boxedWarningRecord : OpenFdaLabelRecord :=
  { set_id := some "s2", effective_time := some "20200101",
    boxed_warning := some ["Serious bleeding risk in patients."] }

/-- The snapshot built from `boxedWarningRecord`. -/
def boxedWarningSnapshot : LabelSnapshot :=
  ((buildLabelSnapshot (fun _ => "hash2") boxedWarningRecord).toOption).getD default

/-- Candidate quotes for the proof-card example: the first occurs in the
evidence text below (up to case/whitespace), the second does not. -/
def exampleQuotes : List EvidenceQuote :=
  [{ sectionName := "boxedWarning", quote := "bleeding  RISK" },
   { sectionName := "warnings", quote := "unicorn" }]

/-- A snapshot with empty evidence text but a non-empty (rule-matching)
boxed-warning section, as can occur for cache-restored data. -/
def emptyEvidenceSnapshot : LabelSnapshot :=
  { setId := "s3", effectiveTime := "20190101", evidenceHash := "h",
    evidenceText := "",
    sections := { (default : EvidenceSections) with boxedWarning := "DANGER do not use" },
    brandNames := [], genericNames := [], activeIngredientsList := [] }

/-- A well-formed record for the hash-invariant witness. -/
def hashWitnessRecord : OpenFdaLabelRecord :=
  { set_id := some "s4", effective_time := some "20220101",
    warnings := some ["May cause drowsiness."] }

/-- An example hash function (stands in for SHA-256; the theorems hold
for every hash function). -/
def exampleHash : String → String := fun s => "sha:" ++ s

/-- Two records whose active-ingredient *sets* coincide (both are the
set containing only `"a"`) while their ingredient *lists* differ by a
duplicate. -/
def dupIngredientA : OpenFdaLabelRecord :=
  { set_id := some "a", effective_time := some "1", active_ingredient := some ["a"] }

/-- See `dupIngredientA`. -/
def dupIngredientB : OpenFdaLabelRecord :=
  { set_id := some "b", effective_time := some "1", active_ingredient := some ["a", "a"] }

/-- Modelled from the claim's words (C5): the normalized
active-ingredient *set* of a record — the normalized ingredient list
with duplicates removed.  This is the spec-side notion that the
counterexample compares against the code's duplicate-preserving
grouping key. -/
def claimIngredientSet (r : OpenFdaLabelRecord) : List String :=
  (normalizedActiveIngredientList r).eraseDups

/-- Two records with genuinely different active ingredients, for the
ambiguity witness. -/
def distinctIngredientRecords : List OpenFdaLabelRecord :=
  [{ set_id := some "x", active_ingredient := some ["ibuprofen"] },
   { set_id := some "y", active_ingredient := some ["naproxen"] }]

/-- A kernel-computable stand-in for the JS `Number` parse on the
concrete effective times used in the selection witness. -/
def exampleParse : String → Int := fun s =>
  if s = "20240101" then 20240101 else if s = "20230101" then 20230101 else 0

/-- Two records with distinct effective times, for the deterministic
selection witness. -/
def selectionRecords : List OpenFdaLabelRecord :=
  [{ id := some "idA", set_id := some "sA", effective_time := some "20230101" },
   { id := some "idB", set_id := some "sB", effective_time := some "20240101" }]

/-- A record carrying `set_id` but no `effective_time`: it does *not*
lack both identity fields, yet snapshot construction fails on it. -/
def missingEffectiveTimeRecord : OpenFdaLabelRecord :=
  { set_id := some "s" }

/-- A record carrying both identity fields, for the identity witness. -/
def identityWitnessRecord : OpenFdaLabelRecord :=
  { set_id := some "sid", effective_time := some "20210101",
    contraindications := some ["Do not use with alcohol."] }

/-! ## Supporting lemmas -/

lemma containsList_infix_iff (hay needle : List Char) :
    containsList hay needle = true ↔ needle <:+: hay := by
  induction hay with
  | nil => simp [containsList, List.isEmpty_iff]
  | cons c t ih => simp [containsList, List.infix_cons_iff, ih]

lemma bumpRisk_ne_low {a b : RiskLabel} (ha : a ≠ .LOW) (hb : b ≠ .LOW) :
    bumpRisk a b ≠ .LOW := by
  revert ha hb; cases a <;> cases b <;> decide

lemma baseStep_risk_ne_low (s : LabelSnapshot) (p : Option RxGuardProfile)
    (acc : List String × List EvidenceQuote × RiskLabel) (rule : KeywordRule)
    (hsev : rule.severity ≠ .LOW) (hacc : acc.2.2 ≠ .LOW) :
    (baseStep s p acc rule).2.2 ≠ .LOW := by
  simp only [baseStep]
  split
  · exact hacc
  split
  · exact hacc
  split
  · exact hacc
  split <;> exact bumpRisk_ne_low hacc hsev

lemma foldl_baseStep_ne_low (s : LabelSnapshot) (p : Option RxGuardProfile) :
    ∀ (rules : List KeywordRule) (acc : List String × List EvidenceQuote × RiskLabel),
      (∀ r ∈ rules, r.severity ≠ .LOW) → acc.2.2 ≠ .LOW →
      ((rules.foldl (baseStep s p) acc).2.2 ≠ .LOW)
  | [], _, _, hacc => hacc
  | r :: rs, acc, hsev, hacc => by
    simp only [List.foldl_cons]
    exact foldl_baseStep_ne_low s p rs _
      (fun x hx => hsev x (List.mem_cons_of_mem _ hx))
      (baseStep_risk_ne_low s p acc r (hsev r (List.mem_cons_self _ _)) hacc)

lemma basePass_risk_ne_low (s : LabelSnapshot) (p : Option RxGuardProfile) :
    (basePass s p).2.2 ≠ .LOW :=
  foldl_baseStep_ne_low s p BASE_RULES ([], [], .UNKNOWN) (by decide) (by decide)

lemma upgradesStep_risk_ne_low (p : Option RxGuardProfile) (rt : List String)
    {risk : RiskLabel} (h : risk ≠ .LOW) : (upgradesStep p rt risk).1 ≠ .LOW := by
  simp only [upgradesStep]
  split <;> split <;>
    first
      | exact bumpRisk_ne_low (bumpRisk_ne_low h (by decide)) (by decide)
      | exact bumpRisk_ne_low h (by decide)
      | exact h

lemma decisionMapping_risk_cases (ev : String) (r : RiskLabel) :
    (decisionMapping ev r).2.2 = .UNKNOWN ∨ (decisionMapping ev r).2.2 = r := by
  unfold decisionMapping
  split
  · exact Or.inl rfl
  split
  · exact Or.inr rfl
  split
  · exact Or.inr rfl
  split
  · exact Or.inr rfl
  · exact Or.inr rfl

lemma decisionMapping_not_info (ev : String) {r : RiskLabel} (h : r ≠ .LOW) :
    (decisionMapping ev r).1 ≠ .INFO := by
  by_cases hev : ev = ""
  · simp [decisionMapping, hev]
  · cases r with
    | LOW => exact absurd rfl h
    | UNKNOWN => simp [decisionMapping, hev]
    | MODERATE => simp [decisionMapping, hev]
    | HIGH => simp [decisionMapping, hev]

lemma decisionMapping_facts (ev : String) {r : RiskLabel} (h : r ≠ .LOW) :
    (decisionMapping ev r).2.2 ≠ .LOW ∧ (decisionMapping ev r).1 ≠ .INFO ∧
    ((decisionMapping ev r).2.2 = .UNKNOWN ∨ (decisionMapping ev r).2.2 = .MODERATE ∨
     (decisionMapping ev r).2.2 = .HIGH) := by
  have hr := decisionMapping_risk_cases ev r
  refine ⟨?_, decisionMapping_not_info ev h, ?_⟩
  · rcases hr with h' | h' <;> rw [h']
    · decide
    · exact h
  · rcases hr with h' | h' <;> rw [h']
    · exact Or.inl rfl
    · cases r with
      | UNKNOWN => exact Or.inl rfl
      | LOW => exact absurd rfl h
      | MODERATE => exact Or.inr (Or.inl rfl)
      | HIGH => exact Or.inr (Or.inr rfl)

lemma decisionMapping_question (ev : String) (r : RiskLabel) (h : ev ≠ "") :
    (decisionMapping ev r).2.1 ≠ some clarifyNoEvidenceQuestion := by
  cases r with
  | UNKNOWN =>
    simp only [decisionMapping, if_neg h]
    decide
  | LOW => simp [decisionMapping, h]
  | MODERATE => simp [decisionMapping, h]
  | HIGH => simp [decisionMapping, h]

lemma finalizeQuotes_ne_nil {d : Decision} (ev : String) (qs : List EvidenceQuote)
    (hd : d = .BLOCK ∨ d = .CAUTION) : finalizeQuotes d ev qs ≠ [] := by
  unfold finalizeQuotes
  split
  · simp
  · rename_i hc
    intro hq
    apply hc
    rcases hd with h | h <;> simp [h, hq]

lemma listLexLe_total : ∀ a b : List Char, (listLexLe a b || listLexLe b a) = true
  | [], b => by simp [listLexLe]
  | a :: as, [] => by simp [listLexLe]
  | a :: as, b :: bs => by
    by_cases hab : a = b
    · subst hab
      simpa [listLexLe] using listLexLe_total as bs
    · simp only [listLexLe, if_neg hab, if_neg (Ne.symm hab)]
      rcases Ne.lt_or_lt hab with h | h <;> simp [h]

lemma listLexLe_trans : ∀ a b c : List Char,
    listLexLe a b = true → listLexLe b c = true → listLexLe a c = true
  | [], _, _, _, _ => by simp [listLexLe]
  | a :: as, [], _, h1, _ => by simp [listLexLe] at h1
  | a :: as, b :: bs, [], _, h2 => by simp [listLexLe] at h2
  | a :: as, b :: bs, c :: cs, h1, h2 => by
    simp only [listLexLe] at h1 h2 ⊢
    by_cases hab : a = b <;> by_cases hbc : b = c
    · subst hab; subst hbc
      simp only [if_pos rfl] at h1 h2 ⊢
      exact listLexLe_trans _ _ _ h1 h2
    · subst hab
      simp only [if_pos rfl, if_neg hbc] at h1 h2 ⊢
      simp [hbc, h2]
    · subst hbc
      simp only [if_pos rfl, if_neg hab] at h1 h2 ⊢
      simp [hab, h1]
    · simp only [if_neg hab, if_neg hbc, decide_eq_true_eq] at h1 h2
      have hac : a < c := lt_trans h1 h2
      simp [ne_of_lt hac, hac]

lemma strLe_total (a b : String) : (strLe a b || strLe b a) = true :=
  listLexLe_total a.data b.data

lemma strLe_trans {a b c : String} (h1 : strLe a b = true) (h2 : strLe b c = true) :
    strLe a c = true :=
  listLexLe_trans a.data b.data c.data h1 h2

lemma strLe_refl (a : String) : strLe a a = true := by
  have := listLexLe_total a.data a.data
  simpa [strLe] using this

lemma recordLe_trans (jsNumber : String → Int) :
    ∀ a b c, recordLe jsNumber a b = true → recordLe jsNumber b c = true →
      recordLe jsNumber a c = true := by
  intro a b c h1 h2
  simp only [recordLe] at h1 h2 ⊢
  by_cases hab : effectiveTimeToNumber jsNumber a.effective_time
      = effectiveTimeToNumber jsNumber b.effective_time <;>
    by_cases hbc : effectiveTimeToNumber jsNumber b.effective_time
      = effectiveTimeToNumber jsNumber c.effective_time
  · rw [hab] at h1 ⊢
    rw [hbc] at h2 ⊢
    simp at h1 h2 ⊢
    exact strLe_trans h1 h2
  · rw [hab] at h1 ⊢
    simp at h1
    simp [hbc] at h2 ⊢
    exact h2
  · rw [← hbc] at h2 ⊢
    simp at h2
    simp [hab] at h1 ⊢
    exact h1
  · simp [hab] at h1
    simp [hbc] at h2
    have hac := lt_trans h2 h1
    simp [ne_of_gt hac, hac]

lemma recordLe_total (jsNumber : String → Int) :
    ∀ a b, (recordLe jsNumber a b || recordLe jsNumber b a) = true := by
  intro a b
  simp only [recordLe]
  by_cases hab : effectiveTimeToNumber jsNumber a.effective_time
      = effectiveTimeToNumber jsNumber b.effective_time
  · simp [hab, strLe_total]
  · simp only [ne_eq, hab, not_false_eq_true, if_true]
    rw [if_pos (Ne.symm hab)]
    rcases Ne.lt_or_lt hab with h | h <;> simp [h]

lemma joinWith_infix_of_mem (sep : String) : ∀ (l : List String) (x : String), x ∈ l →
    x.data <:+: (joinWith sep l).data
  | [], x, hx => absurd hx (List.not_mem_nil x)
  | [y], x, hx => by
    rw [List.mem_singleton.mp hx]
    simp [joinWith]
  | y :: z :: zs, x, hx => by
    rcases List.mem_cons.mp hx with rfl | hmem
    · refine ⟨[], (sep ++ joinWith sep (z :: zs)).data, ?_⟩
      simp [joinWith, String.data_append]
    · refine (joinWith_infix_of_mem sep (z :: zs) x hmem).trans ?_
      refine ⟨(y ++ sep).data, [], ?_⟩
      simp [joinWith, String.data_append]

lemma header_infix_in_part (t b : String) :
    ("=== " ++ t ++ " ===").data <:+:
      ("=== " ++ t ++ " ===" ++ "\n" ++ cleanSection b).data :=
  ⟨[], "\n".data ++ (cleanSection b).data, by
    simp [String.data_append, List.append_assoc]⟩

lemma header_infix_canonical (sections : EvidenceSections) (t b : String)
    (hmem : ("=== " ++ t ++ " ===" ++ "\n" ++ cleanSection b) ∈
      (sectionParts sections).map fun p => "=== " ++ p.1 ++ " ===" ++ "\n" ++ cleanSection p.2) :
    ("=== " ++ t ++ " ===").data <:+: (buildCanonicalEvidenceText sections).data := by
  unfold buildCanonicalEvidenceText
  exact (header_infix_in_part t b).trans (joinWith_infix_of_mem _ _ _ hmem)

lemma buildCanonical_ne_empty (sections : EvidenceSections) :
    buildCanonicalEvidenceText sections ≠ "" := by
  intro h
  have hinf := header_infix_canonical sections "ACTIVE INGREDIENTS" sections.activeIngredients
    (by simp [sectionParts])
  rw [h] at hinf
  have h0 : ("" : String).data = [] := rfl
  rw [h0] at hinf
  exact absurd (List.infix_nil.mp hinf) (by decide)

lemma buildLabelSnapshot_evidenceText (sha256Hex : String → String)
    (record : OpenFdaLabelRecord) (snap : LabelSnapshot)
    (h : buildLabelSnapshot sha256Hex record = .ok snap) :
    snap.evidenceText = buildCanonicalEvidenceText (extractEvidenceSections record) := by
  simp only [buildLabelSnapshot] at h
  split at h
  · simp at h
  · cases h
    rfl

/-! ## Claim theorems -/

/-- C8: the risk-combination operation `bumpRisk` over the totally
ordered scale `UNKNOWN < LOW < MODERATE < HIGH` is monotonic
(`combine(a,b) ≥ a` and `≥ b`), idempotent (`combine(a,a) = a`), and
always yields the maximum of its two arguments. -/
theorem bumpRisk_monotone_idempotent_max :
    ∀ a b : RiskLabel,
      riskOrder a ≤ riskOrder (bumpRisk a b) ∧
      riskOrder b ≤ riskOrder (bumpRisk a b) ∧
      bumpRisk a a = a ∧
      (bumpRisk a b = a ∨ bumpRisk a b = b) ∧
      riskOrder (bumpRisk a b) = max (riskOrder a) (riskOrder b) := by
  intro a b; cases a <;> cases b <;> decide

/-- C2: every quote that survives into a `ProofCard` built by
`buildProofCard` has non-empty normalized text that is a substring
(infix) of the normalized evidence text of the same snapshot data, and
the surviving quotes are a sublist of the candidates — failing quotes
are dropped, never an error. -/
theorem buildProofCard_quotes_substring
    (setId effectiveTime evidenceHash evidenceText : String)
    (quotes : List EvidenceQuote) :
    (∀ q ∈ (buildProofCard setId effectiveTime evidenceHash evidenceText quotes).quotes,
        (normalizeForMatch q.quote).data ≠ [] ∧
        (normalizeForMatch q.quote).data <:+: (normalizeForMatch evidenceText).data) ∧
    (buildProofCard setId effectiveTime evidenceHash evidenceText quotes).quotes.Sublist
      quotes := by
  constructor
  · intro q hq
    have hp : quoteExistsInEvidence evidenceText q.quote = true := by
      simpa [buildProofCard] using (List.of_mem_filter hq)
    unfold quoteExistsInEvidence at hp
    simp only [Bool.and_eq_true, decide_eq_true_eq, jsIncludes] at hp
    obtain ⟨hne, hinc⟩ := hp
    refine ⟨?_, (containsList_infix_iff _ _).mp hinc⟩
    intro h0
    exact hne (String.ext h0)
  · exact List.filter_sublist _

/-- C2 witness: on the concrete evidence text `"Serious bleeding risk."`
and candidate quotes `exampleQuotes`, the surviving quote
`"bleeding  RISK"` normalizes to a non-empty substring of the normalized
evidence, and the surviving quotes form a sublist of the candidates. -/
theorem buildProofCard_quotes_substring_witness :
    ((normalizeForMatch "bleeding  RISK").data ≠ [] ∧
     (normalizeForMatch "bleeding  RISK").data <:+:
       (normalizeForMatch "Serious bleeding risk.").data) ∧
    (buildProofCard "s" "t" "h" "Serious bleeding risk." exampleQuotes).quotes.Sublist
      exampleQuotes := by
  refine ⟨?_, (buildProofCard_quotes_substring "s" "t" "h" "Serious bleeding risk."
    exampleQuotes).2⟩
  exact (buildProofCard_quotes_substring "s" "t" "h" "Serious bleeding risk." exampleQuotes).1
    { sectionName := "boxedWarning", quote := "bleeding  RISK" } (by decide)

/-- C3: on any snapshot whose `evidenceText` is empty, `evaluatePolicy`
returns decision `CLARIFY` and risk `UNKNOWN`, for every profile and
other-medication list — even when section texts match rules. -/
theorem evaluatePolicy_empty_evidence_clarify (snapshot : LabelSnapshot)
    (profile : Option RxGuardProfile) (otherMeds : Option (List String))
    (h : snapshot.evidenceText = "") :
    (evaluatePolicy snapshot profile otherMeds).decision = .CLARIFY ∧
    (evaluatePolicy snapshot profile otherMeds).risk = .UNKNOWN := by
  simp [evaluatePolicy, h, decisionMapping]

/-- C3 witness: `emptyEvidenceSnapshot` has empty evidence but a
non-empty, rule-matching boxed-warning section; the policy still
returns `CLARIFY`/`UNKNOWN`. -/
theorem evaluatePolicy_empty_evidence_clarify_witness :
    emptyEvidenceSnapshot.sections.boxedWarning ≠ "" ∧
    (patternTest .anyWordChar emptyEvidenceSnapshot.sections.boxedWarning = true) ∧
    ((evaluatePolicy emptyEvidenceSnapshot none none).decision = .CLARIFY ∧
     (evaluatePolicy emptyEvidenceSnapshot none none).risk = .UNKNOWN) :=
  ⟨by decide, by decide, evaluatePolicy_empty_evidence_clarify emptyEvidenceSnapshot none none rfl⟩

/-- C4: every snapshot constructed by `buildLabelSnapshot` satisfies
`evidenceHash = hash(evidenceText)`, for every hash function (in
particular hex-encoded SHA-256, which node's `crypto` provides in the
source). -/
theorem buildLabelSnapshot_hash_invariant (sha256Hex : String → String)
    (record : OpenFdaLabelRecord) (snap : LabelSnapshot)
    (h : buildLabelSnapshot sha256Hex record = .ok snap) :
    snap.evidenceHash = sha256Hex snap.evidenceText := by
  simp only [buildLabelSnapshot] at h
  split at h
  · simp at h
  · cases h
    rfl

/-- C4 witness: on `hashWitnessRecord` and the concrete hash
`exampleHash`, construction succeeds and the constructed snapshot's
hash equals the hash of its evidence text. -/
theorem buildLabelSnapshot_hash_invariant_witness :
    ((buildLabelSnapshot exampleHash hashWitnessRecord).map fun s =>
      decide (s.evidenceHash = exampleHash s.evidenceText)) = .ok true := by
  cases h : buildLabelSnapshot exampleHash hashWitnessRecord with
  | error e =>
    have hok : (buildLabelSnapshot exampleHash hashWitnessRecord).isOk = true := by decide
    rw [h] at hok
    simp [Except.isOk, Except.toBool] at hok
  | ok snap =>
    have hh := buildLabelSnapshot_hash_invariant exampleHash hashWitnessRecord snap h
    simp [Except.map, hh]

/-- C7 counterexample: `missingEffectiveTimeRecord` carries `set_id`
(so it does not lack *both* version-identifying fields), yet
`buildLabelSnapshot` fails on it — refuting "fails exactly when the
record lacks both fields". -/
theorem buildLabelSnapshot_missing_one_field_cex :
    missingEffectiveTimeRecord.set_id = some "s" ∧
    (buildLabelSnapshot (fun _ => "h") missingEffectiveTimeRecord
      = .error "openFDA record missing set_id/effective_time; cannot pin evidence.") :=
  ⟨rfl, rfl⟩

/-- C7 (amended): `buildLabelSnapshot` fails with the missing-identity
error exactly when at least one of the version-identifying fields
(`set_id`, `effective_time`) is missing or empty; on success the
snapshot's `setId` and `effectiveTime` equal the record's fields. -/
theorem buildLabelSnapshot_identity_spec (sha256Hex : String → String)
    (record : OpenFdaLabelRecord) :
    ((∃ e, buildLabelSnapshot sha256Hex record = .error e) ↔
       (record.set_id.getD "" = "" ∨ record.effective_time.getD "" = "")) ∧
    (∀ snap, buildLabelSnapshot sha256Hex record = .ok snap →
       snap.setId = record.set_id.getD "" ∧
       snap.effectiveTime = record.effective_time.getD "") := by
  unfold buildLabelSnapshot
  by_cases h1 : record.set_id.getD "" = ""
  · refine ⟨⟨fun _ => Or.inl h1,
      fun _ => ⟨"openFDA record missing set_id/effective_time; cannot pin evidence.",
        by simp [h1]⟩⟩, ?_⟩
    intro snap hsnap
    simp [h1] at hsnap
  · by_cases h2 : record.effective_time.getD "" = ""
    · refine ⟨⟨fun _ => Or.inr h2,
        fun _ => ⟨"openFDA record missing set_id/effective_time; cannot pin evidence.",
          by simp [h1, h2]⟩⟩, ?_⟩
      intro snap hsnap
      simp [h1, h2] at hsnap
    · constructor
      · constructor
        · rintro ⟨e, he⟩
          simp [h1, h2] at he
        · rintro (h | h)
          · exact absurd h h1
          · exact absurd h h2
      · intro snap hsnap
        simp [h1, h2] at hsnap
        cases hsnap
        exact ⟨rfl, rfl⟩

/-- C7 witness: on `identityWitnessRecord` (both identity fields
present) construction succeeds and the snapshot carries the record's
`set_id` and `effective_time`. -/
theorem buildLabelSnapshot_identity_spec_witness :
    ((buildLabelSnapshot (fun _ => "h") identityWitnessRecord).map fun s =>
      (s.setId, s.effectiveTime)) = .ok ("sid", "20210101") := by
  cases h : buildLabelSnapshot (fun _ => "h") identityWitnessRecord with
  | error e =>
    have hok : (buildLabelSnapshot (fun (_ : String) => "h") identityWitnessRecord).isOk
        = true := by decide
    rw [h] at hok
    simp [Except.isOk, Except.toBool] at hok
  | ok snap =>
    obtain ⟨hs, he⟩ :=
      (buildLabelSnapshot_identity_spec (fun _ => "h") identityWitnessRecord).2 snap h
    simp only [Except.map]
    rw [hs, he]
    rfl

/-- C9: `evaluatePolicy` never returns risk `LOW` and never returns
decision `INFO`; its risk is always `UNKNOWN`, `MODERATE` or `HIGH`
(risk starts at `UNKNOWN`, all rule severities are `HIGH`/`MODERATE`,
and upgrades target `HIGH`). -/
theorem evaluatePolicy_no_low_no_info (s : LabelSnapshot) (p : Option RxGuardProfile)
    (m : Option (List String)) :
    (evaluatePolicy s p m).risk ≠ .LOW ∧ (evaluatePolicy s p m).decision ≠ .INFO ∧
    ((evaluatePolicy s p m).risk = .UNKNOWN ∨ (evaluatePolicy s p m).risk = .MODERATE ∨
     (evaluatePolicy s p m).risk = .HIGH) := by
  simp only [evaluatePolicy]
  refine decisionMapping_facts _ ?_
  split
  · exact bumpRisk_ne_low (upgradesStep_risk_ne_low _ _ (basePass_risk_ne_low _ _)) (by decide)
  · exact upgradesStep_risk_ne_low _ _ (basePass_risk_ne_low _ _)

set_option maxRecDepth 40000 in
/-- C1 counterexample: for the snapshot built from
`interactionPrefixRecord` with other medication `"war farin"`, the
composed answer path (`evaluatePolicy` + `buildProofCard`, the pure core
of `rxguardAnswer`) yields decision `BLOCK` with an *empty*
`proofCard.quotes`: the only policy quote is the fallback
`evidenceText.slice(0,280) + '…'`, whose appended ellipsis makes it fail
the substring verification. -/
theorem rxguardAnswer_block_empty_proofCard_cex :
    (buildLabelSnapshot (fun _ => "hash") interactionPrefixRecord).isOk = true ∧
    (rxguardAnswerCore interactionPrefixSnapshot none (some ["war farin"])).1.decision
      = .BLOCK ∧
    (rxguardAnswerCore interactionPrefixSnapshot none (some ["war farin"])).2.quotes = [] :=
  ⟨by decide, by decide, by decide⟩

/-- C1 (amended): for every snapshot, profile and other-medication
list, a `PolicyResult` of `evaluatePolicy` with decision `BLOCK` or
`CAUTION` has a non-empty quote list — when rule-derived quotes are
absent the policy engine appends a single fallback quote built from a
280-unit prefix of the raw evidence text; the proof card's *verified*
quote list may still be empty when that fallback fails verification. -/
theorem evaluatePolicy_block_caution_quotes_nonempty (s : LabelSnapshot)
    (p : Option RxGuardProfile) (m : Option (List String))
    (h : (evaluatePolicy s p m).decision = .BLOCK ∨
         (evaluatePolicy s p m).decision = .CAUTION) :
    (evaluatePolicy s p m).quotes ≠ [] := by
  simp only [evaluatePolicy] at h ⊢
  exact finalizeQuotes_ne_nil _ _ h

set_option maxRecDepth 40000 in
/-- C1 witness: `boxedWarningSnapshot` produces decision `BLOCK`, and
the policy quote list is non-empty. -/
theorem evaluatePolicy_block_caution_quotes_nonempty_witness :
    ((evaluatePolicy boxedWarningSnapshot none none).decision = .BLOCK ∨
     (evaluatePolicy boxedWarningSnapshot none none).decision = .CAUTION) ∧
    (evaluatePolicy boxedWarningSnapshot none none).quotes ≠ [] :=
  ⟨Or.inl (by decide),
   evaluatePolicy_block_caution_quotes_nonempty boxedWarningSnapshot none none
     (Or.inl (by decide))⟩

/-- C5 counterexample: `dupIngredientA` and `dupIngredientB` have the
same normalized active-ingredient *set* (a single ingredient-set group),
yet `detectAmbiguity` flags them ambiguous and the cache-miss resolution
returns the `ambiguous` outcome — refuting the claim's converse half
("a candidate list forming a single ingredient-set group is not
ambiguous"): the code groups by duplicate-preserving sorted lists, not
sets. -/
theorem detectAmbiguity_ingredient_set_cex :
    claimIngredientSet dupIngredientA = claimIngredientSet dupIngredientB ∧
    (detectAmbiguity [dupIngredientA, dupIngredientB]).ambiguous = true ∧
    resolveMissPath (fun _ => "h") (fun _ => 0) [dupIngredientA, dupIngredientB] =
      .ok (.ambiguous [toOption dupIngredientA, toOption dupIngredientB], []) :=
  ⟨rfl, rfl, rfl⟩

/-- C5 (amended): grouping candidates by the code's duplicate-preserving
key (the normalized, sorted active-ingredient list joined with `" | "`):
two or more candidates falling into two or more distinct key groups make
the cache-miss resolution return the `ambiguous` outcome, persisting
nothing; a list with at most one candidate or a single key group is not
ambiguous. -/
theorem resolveMissPath_ambiguity_spec (sha256Hex : String → String)
    (jsNumber : String → Int) (records : List OpenFdaLabelRecord) :
    ((1 < records.length ∧ 1 < ((records.map aiKey).eraseDups).length) →
       resolveMissPath sha256Hex jsNumber records =
         .ok (.ambiguous (((detectAmbiguity records).options.take 5).map fun o => toOption o.1),
              [])) ∧
    ((records.length ≤ 1 ∨ ((records.map aiKey).eraseDups).length ≤ 1) →
       (detectAmbiguity records).ambiguous = false) := by
  constructor
  · rintro ⟨h1, h2⟩
    have hamb : (detectAmbiguity records).ambiguous = true := by
      simp [detectAmbiguity, h1, h2]
    have hemp : ¬ records.isEmpty := by
      cases records
      · simp at h1
      · simp
    simp [resolveMissPath, hemp, hamb]
  · intro h
    simp only [detectAmbiguity]
    rcases h with h | h
    · have hn : ¬ (1 < records.length) := Nat.not_lt.mpr h
      simp [hn]
    · have hn : ¬ (1 < ((records.map aiKey).eraseDups).length) := Nat.not_lt.mpr h
      simp [hn]

/-- C5 witness: two candidates with genuinely different ingredient keys
resolve to the `ambiguous` outcome with nothing persisted, and a
single-candidate list is not ambiguous. -/
theorem resolveMissPath_ambiguity_spec_witness :
    resolveMissPath (fun _ => "h") (fun _ => 0) distinctIngredientRecords =
      .ok (.ambiguous (((detectAmbiguity distinctIngredientRecords).options.take 5).map
             fun o => toOption o.1), []) ∧
    (detectAmbiguity [({ set_id := some "z" } : OpenFdaLabelRecord)]).ambiguous = false :=
  ⟨(resolveMissPath_ambiguity_spec (fun _ => "h") (fun _ => 0)
      distinctIngredientRecords).1 (by decide),
   (resolveMissPath_ambiguity_spec (fun _ => "h") (fun _ => 0)
      [({ set_id := some "z" } : OpenFdaLabelRecord)]).2 (Or.inl (by decide))⟩

/-- C6: `chooseDeterministicRecord` returns `none` on the empty list,
and on a non-empty list returns a candidate of the list that maximizes
the parsed effective time (missing effective time parses to 0, and the
parse parameter absorbs the JS `Number`-with-`isFinite` conversion, so
non-numeric values are 0), with ties resolved by ascending lexicographic
comparison of the stable identifier (`id`, falling back to `set_id`). -/
theorem chooseDeterministicRecord_spec (jsNumber : String → Int)
    (records : List OpenFdaLabelRecord) :
    (chooseDeterministicRecord jsNumber [] = none) ∧
    (records ≠ [] → ∃ r, chooseDeterministicRecord jsNumber records = some r ∧ r ∈ records ∧
      ∀ o ∈ records,
        effectiveTimeToNumber jsNumber o.effective_time <
            effectiveTimeToNumber jsNumber r.effective_time ∨
          (effectiveTimeToNumber jsNumber o.effective_time =
              effectiveTimeToNumber jsNumber r.effective_time ∧
           strLe (recordIdKey r) (recordIdKey o) = true)) := by
  refine ⟨by simp [chooseDeterministicRecord], ?_⟩
  intro hne
  obtain ⟨r, rest, hcons⟩ :
      ∃ r rest, (records.insertionSort fun a b => recordLe jsNumber a b = true)
        = r :: rest := by
    cases h : records.insertionSort (fun a b => recordLe jsNumber a b = true) with
    | nil =>
      exfalso
      have hp := List.perm_insertionSort (fun a b => recordLe jsNumber a b = true) records
      rw [h] at hp
      exact hne hp.symm.eq_nil
    | cons a l => exact ⟨a, l, rfl⟩
  have hmem : r ∈ records := by
    have hp := List.perm_insertionSort (fun a b => recordLe jsNumber a b = true) records
    exact hp.subset (by rw [hcons]; exact List.mem_cons_self _ _)
  have hsorted := @List.sorted_insertionSort _ (fun a b => recordLe jsNumber a b = true)
    (fun a b => instDecidableEqBool (recordLe jsNumber a b) true)
    ⟨fun a b => (Bool.or_eq_true _ _).mp (recordLe_total jsNumber a b)⟩
    ⟨fun a b c hab hbc => recordLe_trans jsNumber a b c hab hbc⟩
    records
  rw [hcons] at hsorted
  have hlerest := (List.pairwise_cons.mp hsorted).1
  refine ⟨r, ?_, hmem, ?_⟩
  · have hemp : ¬ records.isEmpty := by
      cases records
      · exact absurd rfl hne
      · simp
    simp [chooseDeterministicRecord, hemp, hcons]
  · intro o ho
    have ho' : o ∈ r :: rest := by
      rw [← hcons]
      have hp := List.perm_insertionSort (fun a b => recordLe jsNumber a b = true) records
      exact hp.symm.subset ho
    have hle : recordLe jsNumber r o = true := by
      rcases List.mem_cons.mp ho' with h | h
      · subst h
        simp [recordLe, strLe_refl]
      · exact hlerest o h
    simp only [recordLe] at hle
    by_cases h : effectiveTimeToNumber jsNumber r.effective_time
        = effectiveTimeToNumber jsNumber o.effective_time
    · right
      refine ⟨h.symm, ?_⟩
      rw [h] at hle
      simpa using hle
    · left
      simp [h] at hle
      exact hle

/-- C6 witness: on `selectionRecords` the chosen record exists, lies in
the list, and dominates every candidate by effective time with the
identifier tie-break. -/
theorem chooseDeterministicRecord_spec_witness :
    (chooseDeterministicRecord exampleParse [] = none) ∧
    ∃ r, chooseDeterministicRecord exampleParse selectionRecords = some r ∧
      r ∈ selectionRecords ∧
      ∀ o ∈ selectionRecords,
        effectiveTimeToNumber exampleParse o.effective_time <
            effectiveTimeToNumber exampleParse r.effective_time ∨
          (effectiveTimeToNumber exampleParse o.effective_time =
              effectiveTimeToNumber exampleParse r.effective_time ∧
           strLe (recordIdKey r) (recordIdKey o) = true) :=
  ⟨(chooseDeterministicRecord_spec exampleParse selectionRecords).1,
   (chooseDeterministicRecord_spec exampleParse selectionRecords).2 (by decide)⟩

/-- C10: the canonical evidence text is never empty and contains the
twelve fixed uppercase section headers, for every section contents
(including all-empty ones); consequently every snapshot constructed by
`buildLabelSnapshot` has non-empty `evidenceText`, and the
empty-evidence `CLARIFY` branch of `evaluatePolicy` (recognizable by its
retrieval-failure clarifying question) is unreachable for such
snapshots. -/
theorem canonicalEvidence_nonempty_headers :
    (∀ sections : EvidenceSections,
        buildCanonicalEvidenceText sections ≠ "" ∧
        sectionTitles.length = 12 ∧
        ∀ t ∈ sectionTitles,
          ("=== " ++ t ++ " ===").data <:+: (buildCanonicalEvidenceText sections).data) ∧
    (∀ (sha256Hex : String → String) (record : OpenFdaLabelRecord) (snap : LabelSnapshot),
        buildLabelSnapshot sha256Hex record = .ok snap →
        snap.evidenceText ≠ "" ∧
        ∀ (profile : Option RxGuardProfile) (otherMeds : Option (List String)),
          (evaluatePolicy snap profile otherMeds).clarifyingQuestion ≠
            some clarifyNoEvidenceQuestion) := by
  constructor
  · intro sections
    refine ⟨buildCanonical_ne_empty sections, rfl, ?_⟩
    intro t ht
    simp only [sectionTitles, List.mem_cons, List.not_mem_nil, or_false] at ht
    rcases ht with rfl | rfl | rfl | rfl | rfl | rfl | rfl | rfl | rfl | rfl | rfl | rfl
    · exact header_infix_canonical sections _ sections.activeIngredients (by simp [sectionParts])
    · exact header_infix_canonical sections _ sections.boxedWarning (by simp [sectionParts])
    · exact header_infix_canonical sections _ sections.contraindications (by simp [sectionParts])
    · exact header_infix_canonical sections _ sections.warnings (by simp [sectionParts])
    · exact header_infix_canonical sections _ sections.warningsAndCautions (by simp [sectionParts])
    · exact header_infix_canonical sections _ sections.drugInteractions (by simp [sectionParts])
    · exact header_infix_canonical sections _ sections.pregnancy (by simp [sectionParts])
    · exact header_infix_canonical sections _ sections.lactation (by simp [sectionParts])
    · exact header_infix_canonical sections _ sections.pediatricUse (by simp [sectionParts])
    · exact header_infix_canonical sections _ sections.geriatricUse (by simp [sectionParts])
    · exact header_infix_canonical sections _ sections.doNotUse (by simp [sectionParts])
    · exact header_infix_canonical sections _ sections.askDoctor (by simp [sectionParts])
  · intro sha256Hex record snap h
    have hev := buildLabelSnapshot_evidenceText sha256Hex record snap h
    have hne : snap.evidenceText ≠ "" := by
      rw [hev]
      exact buildCanonical_ne_empty _
    refine ⟨hne, ?_⟩
    intro profile otherMeds
    simp only [evaluatePolicy]
    exact decisionMapping_question _ _ hne

/-- C10 witness: with all-empty sections the canonical text is
non-empty and contains the `PREGNANCY` header; the snapshot built from
`boxedWarningRecord` has non-empty evidence and never produces the
empty-evidence clarifying question. -/
theorem canonicalEvidence_nonempty_headers_witness :
    buildCanonicalEvidenceText default ≠ "" ∧
    ("=== " ++ "PREGNANCY" ++ " ===").data <:+:
      (buildCanonicalEvidenceText default).data ∧
    ((buildLabelSnapshot (fun _ => "h") boxedWarningRecord).map fun snap =>
        decide (snap.evidenceText ≠ "") &&
        decide ((evaluatePolicy snap none none).clarifyingQuestion ≠
          some clarifyNoEvidenceQuestion)) = .ok true := by
  refine ⟨(canonicalEvidence_nonempty_headers.1 default).1,
    (canonicalEvidence_nonempty_headers.1 default).2.2 "PREGNANCY" (by decide), ?_⟩
  cases h : buildLabelSnapshot (fun _ => "h") boxedWarningRecord with
  | error e =>
    have hok : (buildLabelSnapshot (fun (_ : String) => "h") boxedWarningRecord).isOk
        = true := by decide
    rw [h] at hok
    simp [Except.isOk, Except.toBool] at hok
  | ok snap =>
    obtain ⟨h1, h2⟩ := canonicalEvidence_nonempty_headers.2 _ _ _ h
    simp [Except.map, h1, h2 none none]

end RxGuard
